import Mathlib

/-!
Verification development for the realtime session engine of the
`inbound_bot` repository.  The Python sources under `src/realtime/` are
shallowly embedded as pure Lean functions: dictionaries become association
lists keyed by strings, in-place mutation becomes explicit state passing,
`raise Exception(...)` becomes `Except`-style error results (one
constructor per family of raise sites, carrying the data interpolated into
the Python message), and wall-clock times are abstract naturals.  Python
float arithmetic that is mathematically exact rational arithmetic
(`int((sample_count / 16000) * 1000)`) is modelled by exact natural
division.
-/

set_option autoImplicit false

namespace InboundBot

/-- Raw byte sequences (Python `bytes` / `bytearray`), one natural per byte. -/
abbrev Bytes := List Nat

/-- Lookup in an association list, modelling Python `dict.get` /  `d[k]`. -/
def lookupA {α : Type} : List (String × α) → String → Option α
  | [], _ => none
  | p :: rest, k => if p.1 = k then some p.2 else lookupA rest k

/-- Membership test, modelling Python `k in d`. -/
def containsA {α : Type} (m : List (String × α)) (k : String) : Bool :=
  (lookupA m k).isSome

/-- Assignment `d[k] = v`: replace the binding if the key is present,
otherwise append a fresh binding (Python dicts keep insertion order). -/
def insertA {α : Type} (m : List (String × α)) (k : String) (v : α) : List (String × α) :=
  if containsA m k then m.map (fun p => if p.1 = k then (k, v) else p) else m ++ [(k, v)]

/-- Deletion `del d[k]`: remove every binding with the given key. -/
def eraseA {α : Type} : List (String × α) → String → List (String × α)
  | [], _ => []
  | p :: rest, k => if p.1 = k then eraseA rest k else p :: eraseA rest k

/-- Value stored under `formatted["audio"]`.  `conversation.py` initialises
it to the Python list `[]`, `_process_audio_delta` appends whole byte
chunks to that list (`audio += [append_values]`), while the queued-speech
and queued-input-audio merge paths of `_process_item_created` overwrite it
with a flat `bytearray` slice.  Both shapes occur at runtime, so the model
keeps the distinction. -/
inductive AudioVal where
  | flat (bs : Bytes)
  | chunks (cs : List Bytes)
  deriving Repr, DecidableEq

/-- Total number of audio bytes held, across either representation. -/
def AudioVal.byteCount : AudioVal → Nat
  | .flat bs => bs.length
  | .chunks cs => (cs.map List.length).sum

/-- Python slicing `audio[:n]`: truncates a `bytearray` at a byte boundary
but truncates a list of chunks at a chunk boundary. -/
def AudioVal.slice : AudioVal → Nat → AudioVal
  | .flat bs, n => .flat (bs.take n)
  | .chunks cs, n => .chunks (cs.take n)

/-- Errors raised by `RealtimeConversation` processors.  `notFound` stands
for the raise sites with message `<proc>: Item "<id>" not found` (and the
matching response lookup failure); `keyError` / `indexError` / `typeError`
stand for the implicit Python exceptions of dict, list-index and
`bytearray +=` access. -/
inductive ConvError where
  | notFound (proc : String) (id : String)
  | missingItem (proc : String)
  | keyError (key : String)
  | indexError
  | typeError
  deriving Repr, DecidableEq

/-- Python `audio += [append_values]`: appending the decoded chunk object
to a list succeeds; on a flat `bytearray` the same statement raises
`TypeError` because the right-hand side is a one-element list holding a
`bytes` object. -/
def AudioVal.appendChunk : AudioVal → Bytes → Except ConvError AudioVal
  | .chunks cs, bs => .ok (.chunks (cs ++ [bs]))
  | .flat _, _ => .error .typeError

/-- One element of an item's `content` list.  Fields that a given part may
lack in the wire payload are `Option`s; reading an absent field raises
`KeyError` in the source. -/
structure ContentPart where
  type : String
  text : Option String := none
  transcript : Option String := none
  deriving Repr, DecidableEq

/-- The tool descriptor built by `_process_item_created` for
`function_call` items (`formatted["tool"]`). -/
structure ToolDesc where
  type : String
  name : String
  call_id : String
  arguments : String
  deriving Repr, DecidableEq

/-- The `formatted` dictionary attached to every stored item.  `tool` and
`output` model keys that are only present after the corresponding
assignment. -/
structure Formatted where
  audio : AudioVal := .chunks []
  text : String := ""
  transcript : String := ""
  tool : Option ToolDesc := none
  output : Option String := none
  deriving Repr, DecidableEq

/-- A conversation item as stored in `item_lookup` / `items`. -/
structure Item where
  id : String
  type : String
  role : Option String := none
  status : Option String := none
  content : Option (List ContentPart) := none
  name : Option String := none
  call_id : Option String := none
  arguments : Option String := none
  output : Option String := none
  formatted : Formatted := {}
  deriving Repr, DecidableEq

/-- The raw `item` dictionary carried by a `conversation.item.created`
event; `_process_item_created` copies it and installs a fresh `formatted`
dictionary, so the payload carries none. -/
structure ItemPayload where
  id : String
  type : String
  role : Option String := none
  status : Option String := none
  content : Option (List ContentPart) := none
  name : Option String := none
  call_id : Option String := none
  arguments : Option String := none
  output : Option String := none
  deriving Repr, DecidableEq

/-- A queued speech segment (`queued_speech_items` entry): the `audio` key
exists only once `_process_speech_stopped` ran with a live buffer. -/
structure SpeechSeg where
  audio_start_ms : Nat
  audio_end_ms : Option Nat := none
  audio : Option Bytes := none
  deriving Repr, DecidableEq

/-- State of a `RealtimeConversation` (the fields set by `clear()`).  The
ordered `items` list of the source holds the same objects as
`item_lookup`; the model keeps the order as a list of ids and the objects
in the lookup. -/
structure Store where
  item_lookup : List (String × Item) := []
  itemIds : List String := []
  queued_speech_items : List (String × SpeechSeg) := []
  queued_transcript_items : List (String × String) := []
  queued_input_audio : Option Bytes := none
  deriving Repr, DecidableEq

/-- Model of `RealtimeConversation.clear()`. -/
def Store.clear (_ : Store) : Store := {}

/-- Model of `RealtimeConversation.default_frequency`. -/
def default_frequency : Nat := 16000

/-- Delta descriptor returned as the second component of a processor. -/
inductive DeltaOut where
  | transcriptD (s : String)
  | audioD (bs : Bytes)
  | textD (s : String)
  | argsD (s : String)
  deriving Repr, DecidableEq

/-- Result of one event processor: the store after the call (partial
mutations survive a raise, so the store is returned even on error)
together with the `(item, delta)` pair or the raised error. -/
abbrev PRes := Store × Except ConvError (Option Item × Option DeltaOut)

/-- Store an item under its id, modelling in-place mutation of the object
shared by `item_lookup` and `items`. -/
def Store.setItem (st : Store) (id : String) (it : Item) : Store :=
  { st with item_lookup := insertA st.item_lookup id it }

/-! Event payload shapes used by the processors below. -/

/-- Payload of `conversation.item.created`. -/
structure CreatedEvent where
  item : ItemPayload
  deriving Repr, DecidableEq

/-- Payload of `conversation.item.truncated`. -/
structure TruncatedEvent where
  item_id : String
  audio_end_ms : Nat
  deriving Repr, DecidableEq

/-- Payload of `conversation.item.deleted`. -/
structure DeletedEvent where
  item_id : String
  deriving Repr, DecidableEq

/-- Payload of `response.text.delta` and `response.audio_transcript.delta`. -/
structure DeltaEvent where
  item_id : String
  content_index : Nat
  delta : String
  deriving Repr, DecidableEq

/-- Payload of `response.audio.delta`; `deltaBytes` is the result of
`base64_to_array_buffer(delta).tobytes()`, the base64 decoding performed
at the codec boundary by `utils.py`. -/
structure AudioDeltaEvent where
  item_id : String
  content_index : Nat
  deltaBytes : Bytes
  deriving Repr, DecidableEq

/-- Payload of `response.function_call_arguments.delta` (the processor
reads no content index). -/
structure ArgsDeltaEvent where
  item_id : String
  delta : String
  deriving Repr, DecidableEq

/-- Payload of `response.content_part.added`. -/
structure PartAddedEvent where
  item_id : String
  part : ContentPart
  deriving Repr, DecidableEq

/-- The `item` field of `response.output_item.done` (only `id` and
`status` are read). -/
structure DoneItem where
  id : String
  status : Option String := none
  deriving Repr, DecidableEq

/-- Payload of `response.output_item.done`; a missing or null `item` is
modelled by `none`. -/
structure DoneEvent where
  item : Option DoneItem
  deriving Repr, DecidableEq

/-! The `_process_item_created` pipeline.  The source registers the fresh
copy first (when the id is new) and then mutates it in place; because the
registered entry aliases the local variable, the model instead threads the
item under construction through the successive stages and commits it at
the single exit point.  A raise part-way leaves the mutations made so far
visible, which the stage functions reproduce by carrying the partially
updated store and item next to the error. -/

/-- Intermediate state of `_process_item_created`: current store, the item
under construction (`new_item`), and the pending exception if one was
raised. -/
structure CreatedStage where
  st : Store
  it : Item
  err : Option ConvError
  deriving Repr, DecidableEq

/-- Lines 67-69: merge a queued speech segment into `formatted["audio"]`
and consume the queue entry.  Reading the segment's `audio` key raises
`KeyError` when `_process_speech_stopped` never attached one. -/
def stageSpeech (s : CreatedStage) : CreatedStage :=
  if s.err.isSome then s else
  match lookupA s.st.queued_speech_items s.it.id with
  | none => s
  | some seg =>
    match seg.audio with
    | none => { s with err := some (.keyError "audio") }
    | some bs =>
      { st := { s.st with queued_speech_items := eraseA s.st.queued_speech_items s.it.id },
        it := { s.it with formatted := { s.it.formatted with audio := .flat bs } },
        err := none }

/-- Loop body of lines 70-73: concatenate the `text` of every
`text`/`input_text` content part onto an accumulator; a part lacking the
`text` key raises `KeyError`, keeping the partial concatenation. -/
def textFromParts : List ContentPart → String → String × Option ConvError
  | [], acc => (acc, none)
  | c :: rest, acc =>
    if c.type = "text" ∨ c.type = "input_text" then
      match c.text with
      | none => (acc, some (.keyError "text"))
      | some t => textFromParts rest (acc ++ t)
    else textFromParts rest acc

/-- Lines 70-73: fold the text content parts into `formatted["text"]`
(skipped when the payload has no `content` key). -/
def stageText (s : CreatedStage) : CreatedStage :=
  if s.err.isSome then s else
  match s.it.content with
  | none => s
  | some parts =>
    let r := textFromParts parts s.it.formatted.text
    { s with it := { s.it with formatted := { s.it.formatted with text := r.1 } }, err := r.2 }

/-- Lines 74-76: merge a queued transcript and consume the queue entry. -/
def stageTranscript (s : CreatedStage) : CreatedStage :=
  if s.err.isSome then s else
  match lookupA s.st.queued_transcript_items s.it.id with
  | none => s
  | some tr =>
    { st := { s.st with queued_transcript_items := eraseA s.st.queued_transcript_items s.it.id },
      it := { s.it with formatted := { s.it.formatted with transcript := tr } },
      err := none }

/-- Lines 77-95: status assignment by item type; a user message also
consumes any pending `queued_input_audio`, a `function_call` builds the
tool descriptor, a `function_call_output` records its output. -/
def stageStatus (s : CreatedStage) : CreatedStage :=
  if s.err.isSome then s else
  if s.it.type = "message" then
    match s.it.role with
    | none => { s with err := some (.keyError "role") }
    | some r =>
      if r = "user" then
        match s.st.queued_input_audio with
        | some qa =>
          if qa.isEmpty then { s with it := { s.it with status := some "completed" } }
          else
            { st := { s.st with queued_input_audio := none },
              it := { s.it with
                status := some "completed",
                formatted := { s.it.formatted with audio := .flat qa } },
              err := s.err }
        | none => { s with it := { s.it with status := some "completed" } }
      else { s with it := { s.it with status := some "in_progress" } }
  else if s.it.type = "function_call" then
    match s.it.name with
    | none => { s with err := some (.keyError "name") }
    | some nm =>
      match s.it.call_id with
      | none => { s with err := some (.keyError "call_id") }
      | some cid =>
        { s with it := { s.it with
            formatted := { s.it.formatted with
              tool := some { type := "function", name := nm, call_id := cid, arguments := "" } },
            status := some "in_progress" } }
  else if s.it.type = "function_call_output" then
    match s.it.output with
    | none => { s with err := some (.keyError "output") }
    | some out =>
      { s with it := { s.it with
          status := some "completed",
          formatted := { s.it.formatted with output := some out } } }
  else s

/-- The fresh copy made on line 62 plus the fresh `formatted` dictionary
installed on line 66. -/
def mkNewItem (p : ItemPayload) : Item :=
  { id := p.id, type := p.type, role := p.role, status := p.status, content := p.content,
    name := p.name, call_id := p.call_id, arguments := p.arguments, output := p.output,
    formatted := { audio := .chunks [], text := "", transcript := "" } }

/-- Model of `_process_item_created` (conversation.py lines 60-96). -/
def process_item_created (st : Store) (e : CreatedEvent) : PRes :=
  let p := e.item
  let isNew := ¬ containsA st.item_lookup p.id
  let s := stageStatus (stageTranscript (stageText (stageSpeech
    { st := st, it := mkNewItem p, err := none })))
  let stOut :=
    if isNew then
      { s.st with item_lookup := insertA s.st.item_lookup p.id s.it,
                  itemIds := s.st.itemIds ++ [p.id] }
    else s.st
  (stOut, match s.err with
          | some er => .error er
          | none => .ok (some s.it, none))

/-- Model of `_process_item_truncated` (conversation.py lines 98-107). -/
def process_item_truncated (st : Store) (e : TruncatedEvent) : PRes :=
  match lookupA st.item_lookup e.item_id with
  | none => (st, .error (.notFound "item.truncated" e.item_id))
  | some item =>
    let end_index := e.audio_end_ms * default_frequency / 1000
    let item := { item with formatted := { item.formatted with
        transcript := "", audio := item.formatted.audio.slice end_index } }
    (st.setItem e.item_id item, .ok (some item, none))

/-- Model of `_process_item_deleted` (conversation.py lines 109-116). -/
def process_item_deleted (st : Store) (e : DeletedEvent) : PRes :=
  match lookupA st.item_lookup e.item_id with
  | none => (st, .error (.notFound "item.deleted" e.item_id))
  | some item =>
    ({ st with item_lookup := eraseA st.item_lookup e.item_id,
               itemIds := st.itemIds.filter (fun i => i ≠ e.item_id) },
     .ok (some item, none))

/-- Model of `_process_audio_delta` (conversation.py lines 194-205): the one
processor that tolerates a missing item (logs and returns `(None, None)`). -/
def process_audio_delta (st : Store) (e : AudioDeltaEvent) : PRes :=
  match lookupA st.item_lookup e.item_id with
  | none => (st, .ok (none, none))
  | some item =>
    match item.formatted.audio.appendChunk e.deltaBytes with
    | .error er => (st, .error er)
    | .ok audio' =>
      let item := { item with formatted := { item.formatted with audio := audio' } }
      (st.setItem e.item_id item, .ok (some item, some (.audioD e.deltaBytes)))

/-- Model of `_process_text_delta` (conversation.py lines 207-216). -/
def process_text_delta (st : Store) (e : DeltaEvent) : PRes :=
  match lookupA st.item_lookup e.item_id with
  | none => (st, .error (.notFound "response.text.delta" e.item_id))
  | some item =>
    match item.content with
    | none => (st, .error (.keyError "content"))
    | some parts =>
      if h : e.content_index < parts.length then
        let part := parts.get ⟨e.content_index, h⟩
        match part.text with
        | none => (st, .error (.keyError "text"))
        | some t =>
          let item := { item with
            content := some (parts.set e.content_index { part with text := some (t ++ e.delta) }),
            formatted := { item.formatted with text := item.formatted.text ++ e.delta } }
          (st.setItem e.item_id item, .ok (some item, some (.textD e.delta)))
      else (st, .error .indexError)

/-- Model of `_process_audio_transcript_delta` (conversation.py lines 183-192). -/
def process_audio_transcript_delta (st : Store) (e : DeltaEvent) : PRes :=
  match lookupA st.item_lookup e.item_id with
  | none => (st, .error (.notFound "response.audio_transcript.delta" e.item_id))
  | some item =>
    match item.content with
    | none => (st, .error (.keyError "content"))
    | some parts =>
      if h : e.content_index < parts.length then
        let part := parts.get ⟨e.content_index, h⟩
        match part.transcript with
        | none => (st, .error (.keyError "transcript"))
        | some t =>
          let item := { item with
            content := some (parts.set e.content_index
              { part with transcript := some (t ++ e.delta) }),
            formatted := { item.formatted with
              transcript := item.formatted.transcript ++ e.delta } }
          (st.setItem e.item_id item, .ok (some item, some (.transcriptD e.delta)))
      else (st, .error .indexError)

/-- Model of `_process_function_call_arguments_delta` (conversation.py lines
218-226). -/
def process_function_call_arguments_delta (st : Store) (e : ArgsDeltaEvent) : PRes :=
  match lookupA st.item_lookup e.item_id with
  | none => (st, .error (.notFound "response.function_call_arguments.delta" e.item_id))
  | some item =>
    match item.arguments with
    | none => (st, .error (.keyError "arguments"))
    | some args =>
      match item.formatted.tool with
      | none => (st, .error (.keyError "tool"))
      | some tool =>
        let item := { item with
          arguments := some (args ++ e.delta),
          formatted := { item.formatted with
            tool := some { tool with arguments := tool.arguments ++ e.delta } } }
        (st.setItem e.item_id item, .ok (some item, some (.argsD e.delta)))

/-- Model of `_process_content_part_added` (conversation.py lines 174-181). -/
def process_content_part_added (st : Store) (e : PartAddedEvent) : PRes :=
  match lookupA st.item_lookup e.item_id with
  | none => (st, .error (.notFound "response.content_part.added" e.item_id))
  | some item =>
    match item.content with
    | none => (st, .error (.keyError "content"))
    | some parts =>
      let item := { item with content := some (parts ++ [e.part]) }
      (st.setItem e.item_id item, .ok (some item, none))

/-- Model of `_process_output_item_done` (conversation.py lines 164-172). -/
def process_output_item_done (st : Store) (e : DoneEvent) : PRes :=
  match e.item with
  | none => (st, .error (.missingItem "response.output_item.done"))
  | some di =>
    match lookupA st.item_lookup di.id with
    | none => (st, .error (.notFound "response.output_item.done" di.id))
    | some found =>
      match di.status with
      | none => (st, .error (.keyError "status"))
      | some s =>
        let found := { found with status := some s }
        (st.setItem di.id found, .ok (some found, none))

/-! Silence watchdog.  Two implementations exist in the repository: the
one wired into `RealtimeClient` (client.py lines 243-323) and the
standalone `SilenceDetector` (inactivitetimeout.py), which no module
imports.  Wall-clock instants are abstract naturals; `elapsed = now -
last_activity` uses truncated subtraction, matching nonnegative elapsed
time under a monotone clock.  A `Timer` object is modelled by the delay it
was armed with; a timer that has fired or been cancelled is `none`. -/

/-- Watchdog fields of `RealtimeClient`. -/
structure WatchdogState where
  active : Bool
  triggered : Bool
  lastActivity : Nat
  timer : Option Nat
  timeout : Nat
  deriving Repr, DecidableEq

/-- Model of `RealtimeClient._schedule_silence_timer` (client.py lines 281-286). -/
def schedule_silence_timer (w : WatchdogState) : WatchdogState :=
  if w.active ∧ ¬ w.triggered then { w with timer := some w.timeout } else w

/-- Model of `RealtimeClient._reset_silence_timer` (client.py lines 269-279). -/
def reset_silence_timer (w : WatchdogState) (now : Nat) : WatchdogState :=
  if ¬ w.active ∨ w.triggered then w
  else schedule_silence_timer { w with lastActivity := now, timer := none }

/-- Model of `RealtimeClient._stop_silence_detection` (client.py lines 261-267). -/
def stop_silence_detection (w : WatchdogState) : WatchdogState :=
  { w with active := false, timer := none }

/-- Model of `RealtimeClient._start_silence_detection` (client.py lines 243-259),
called at `now`; a no-op when detection is already active. -/
def start_silence_detection (w : WatchdogState) (now : Nat) : WatchdogState :=
  if w.active then w
  else schedule_silence_timer
    { w with active := true, triggered := false, lastActivity := now, timer := none }

/-- Model of `RealtimeClient._handle_silence_timeout` (client.py lines 288-323),
run when the armed timer expires at `now`.  Returns the new state and
whether the timeout fired (i.e. a disconnect was scheduled on the event
loop).  When `elapsed < timeout` the handler simply returns: unlike
`SilenceDetector` it does not reschedule, the concurrent activity reset
that moved `last_activity` forward has already armed a fresh timer. -/
def handle_silence_timeout (w : WatchdogState) (now : Nat) : WatchdogState × Bool :=
  if ¬ w.active ∨ w.triggered then (w, false)
  else
    let elapsed := now - w.lastActivity
    if w.timeout ≤ elapsed then
      ({ w with triggered := true, active := false, timer := none }, true)
    else (w, false)

/-- Events the watchdog state can receive after a point in time: a timer
callback running at `now`, or an activity reset at `now`. -/
inductive WStep where
  | timerFires (now : Nat)
  | resetAt (now : Nat)
  deriving Repr, DecidableEq

/-- Run a sequence of watchdog steps, counting how many timer callbacks
actually fired (scheduled a termination). -/
def runWSteps (w : WatchdogState) : List WStep → WatchdogState × Nat
  | [] => (w, 0)
  | .timerFires now :: rest =>
    let r := handle_silence_timeout w now
    let s := runWSteps r.1 rest
    (s.1, (if r.2 then 1 else 0) + s.2)
  | .resetAt now :: rest => runWSteps (reset_silence_timer w now) rest

/-- State of the standalone `SilenceDetector` (inactivitetimeout.py). -/
structure DetectorState where
  is_active : Bool
  lastActivity : Nat
  timer : Option Nat
  timeout : Nat
  deriving Repr, DecidableEq

/-- Model of `SilenceDetector._handle_timeout` (inactivitetimeout.py lines 89-122)
at `now`.  On the fire path it invokes the callbacks and leaves its own
state untouched; otherwise it re-arms a timer for the remaining
`timeout - elapsed` when that is positive. -/
def detector_handle_timeout (d : DetectorState) (now : Nat) : DetectorState × Bool :=
  let elapsed := now - d.lastActivity
  if d.timeout ≤ elapsed ∧ d.is_active then (d, true)
  else
    let remaining := d.timeout - elapsed
    if 0 < remaining then ({ d with timer := some remaining }, false)
    else (d, false)

/-! Transport layer (`RealtimeAPI`, api.py) and client layer
(`RealtimeClient`, client.py). -/

/-- Connection state of `RealtimeAPI`: `ws` is the open websocket stream
handle, `none` when disconnected. -/
structure APIState where
  ws : Option Nat := none
  deriving Repr, DecidableEq

/-- Model of `RealtimeAPI.is_connected` (api.py lines 37-38). -/
def api_is_connected (a : APIState) : Bool := a.ws.isSome

/-- Model of `RealtimeAPI.disconnect` (api.py lines 96-100): close the stream if
one is open, else do nothing.  The second component counts how many times
the underlying stream was released (`ws.close()` calls). -/
def api_disconnect (a : APIState) : APIState × Nat :=
  match a.ws with
  | some _ => ({ ws := none }, 1)
  | none => (a, 0)

/-- A registered tool handler.  `callable` is the Python `callable(...)`
test; `run` abstracts the outcome of `await handler(**json_arguments)`:
`Except.ok` is the handler's (already JSON-dumped) result, `Except.error`
the message of the exception it raised (a non-callable handler's `run` is
the `TypeError` such a call raises). -/
structure Handler where
  callable : Bool
  run : String → Except String String

/-- A tool definition dictionary; `name` is `definition.get("name")` with
`none` for a missing key (the empty string is falsy in the source's
check), and `schema` stands for the remaining definition fields. -/
structure ToolDef where
  name : Option String := none
  schema : String := ""
  deriving Repr, DecidableEq

/-- A registry entry: `self.tools[name] = {definition, handler}`. -/
structure RegTool where
  definition : ToolDef
  handler : Handler

/-- Errors raised by `RealtimeClient` methods, one constructor per raise
site, carrying the data interpolated into the message. -/
inductive ClientError where
  | missingToolName
  | toolAlreadyAdded (name : String)
  | handlerNotCallable (name : String)
  | toolDoesNotExist (name : String)
  | itemNotFound (id : String)
  | notMessageType
  | notAssistantRole
  | noAudioContent
  | keyErr (key : String)
  deriving Repr, DecidableEq

/-- Model of `RealtimeClient.add_tool` (client.py lines 457-469).  On success it
also pushes a `session.update`; the returned registry is the mutated
`self.tools`. -/
def add_tool (tools : List (String × RegTool)) (d : ToolDef) (h : Handler) :
    Except ClientError (List (String × RegTool) × RegTool) :=
  match d.name with
  | none => .error .missingToolName
  | some n =>
    if n = "" then .error .missingToolName
    else if containsA tools n then .error (.toolAlreadyAdded n)
    else if ¬ h.callable then .error (.handlerNotCallable n)
    else .ok (insertA tools n ⟨d, h⟩, ⟨d, h⟩)

/-- Model of `RealtimeClient.remove_tool` (client.py lines 471-475). -/
def remove_tool (tools : List (String × RegTool)) (n : String) :
    Except ClientError (List (String × RegTool)) :=
  if ¬ containsA tools n then .error (.toolDoesNotExist n)
  else .ok (eraseA tools n)

/-- Output of a `function_call_output` item: `success` is
`json.dumps(result)`, `failure` is `json.dumps` of the structured
error-payload dictionary built from the exception message. -/
inductive ToolOutput where
  | success (result : String)
  | failure (errMsg : String)
  deriving Repr, DecidableEq

/-- Frames sent through `RealtimeAPI.send`, restricted to the event types
the claims mention. -/
inductive OutFrame where
  | responseCancel
  | responseCreate
  | bufferCommit
  | itemTruncate (item_id : String) (content_index : Nat) (audio_end_ms : Nat)
  | functionCallOutput (call_id : String) (output : ToolOutput)
  deriving Repr, DecidableEq

/-- Client-side state read and written by `create_response`,
`cancel_response` and `_call_tool`. -/
structure ClientState where
  tools : List (String × RegTool)
  turn_detection : Option String
  input_audio_buffer : Bytes
  conv : Store

/-- Model of `RealtimeClient.get_turn_detection_type` (client.py lines 454-455). -/
def get_turn_detection_type (c : ClientState) : Option String := c.turn_detection

/-- Model of `RealtimeClient.create_response` (client.py lines 527-534): with
caller-controlled turn taking and a non-empty local buffer, first commit
and queue the buffer, then always request one response generation. -/
def create_response (c : ClientState) : ClientState × List OutFrame :=
  if get_turn_detection_type c = none ∧ 0 < c.input_audio_buffer.length then
    ({ c with input_audio_buffer := [],
              conv := { c.conv with queued_input_audio := some c.input_audio_buffer } },
     [.bufferCommit, .responseCreate])
  else (c, [.responseCreate])

/-- The exception message of `_call_tool`'s tool-lookup failure. -/
def toolNotAddedMsg (name : String) : String :=
  "Tool " ++ name ++ " has not been added"

/-- Model of `RealtimeClient._call_tool` (client.py lines 358-390).  `parsed` is
the outcome of `json.loads(tool["arguments"])`.  Any exception inside the
`try` block is converted into a `function_call_output` frame carrying the
error payload; in every case `create_response` then runs. -/
def call_tool (c : ClientState) (tool : ToolDesc) (parsed : Except String String) :
    ClientState × List OutFrame :=
  let outputFrame : OutFrame :=
    match parsed with
    | .error e => .functionCallOutput tool.call_id (.failure e)
    | .ok args =>
      match lookupA c.tools tool.name with
      | none => .functionCallOutput tool.call_id (.failure (toolNotAddedMsg tool.name))
      | some cfg =>
        match cfg.handler.run args with
        | .ok result => .functionCallOutput tool.call_id (.success result)
        | .error e => .functionCallOutput tool.call_id (.failure e)
  let r := create_response c
  (r.1, outputFrame :: r.2)

/-- Index of the first content part with type `audio`, the
`next((i for i, c in enumerate(...) if ...), -1)` of client.py line 550
(`none` for the `-1` sentinel). -/
def findAudioIndex (parts : List ContentPart) : Option Nat :=
  parts.findIdx? (fun p => p.type = "audio")

/-- Model of `RealtimeClient.cancel_response` (client.py lines 536-561).  Returns
the frames actually handed to `realtime.send` before returning or
raising, together with the result.  Note the source sends
`response.cancel` before checking for an audio content part. -/
def cancel_response (c : ClientState) (id : Option String) (sample_count : Nat) :
    List OutFrame × Except ClientError (Option Item) :=
  match id with
  | none => ([.responseCancel], .ok none)
  | some i =>
    match lookupA c.conv.item_lookup i with
    | none => ([], .error (.itemNotFound i))
    | some item =>
      if item.type ≠ "message" then ([], .error .notMessageType)
      else
        match item.role with
        | none => ([], .error (.keyErr "role"))
        | some r =>
          if r ≠ "assistant" then ([], .error .notAssistantRole)
          else
            match item.content with
            | none => ([.responseCancel], .error (.keyErr "content"))
            | some parts =>
              match findAudioIndex parts with
              | none => ([.responseCancel], .error .noAudioContent)
              | some ai =>
                ([.responseCancel,
                  .itemTruncate i ai (sample_count * 1000 / default_frequency)],
                 .ok (some item))

/-- Full client state touched by `RealtimeClient.disconnect`. -/
structure RCState where
  silence : WatchdogState
  end_call_check_task : Bool
  session_created : Bool
  conv : Store
  api : APIState

/-- Model of `RealtimeClient.disconnect` (client.py lines 437-452): stop silence
detection, cancel the END_CALL task, reset session state, clear the
conversation, and close the transport only if it is still open.  The
second component counts underlying stream releases. -/
def client_disconnect (s : RCState) : RCState × Nat :=
  let s := { s with silence := stop_silence_detection s.silence,
                    end_call_check_task := false,
                    session_created := false,
                    conv := s.conv.clear }
  if api_is_connected s.api then
    let r := api_disconnect s.api
    ({ s with api := r.1 }, r.2)
  else (s, 0)

/-! Derived operations and concrete scenario values used by the
statements below. -/

/-- Process a sequence of `response.text.delta` events in arrival order,
stopping at the first raised error (the exception aborts the stream
loop). -/
def applyTextDeltas (st : Store) : List DeltaEvent → Store × Option ConvError
  | [] => (st, none)
  | e :: rest =>
    match process_text_delta st e with
    | (st1, .ok _) => applyTextDeltas st1 rest
    | (st1, .error er) => (st1, some er)

/-- Process a sequence of `response.audio_transcript.delta` events in
arrival order, stopping at the first raised error. -/
def applyTranscriptDeltas (st : Store) : List DeltaEvent → Store × Option ConvError
  | [] => (st, none)
  | e :: rest =>
    match process_audio_transcript_delta st e with
    | (st1, .ok _) => applyTranscriptDeltas st1 rest
    | (st1, .error er) => (st1, some er)

/-- In-order concatenation of the delta strings of a list of delta
events. -/
def concatDeltas (es : List DeltaEvent) : String :=
  String.join (es.map (fun e => e.delta))

/-- Recognizer for `function_call_output` item-create frames. -/
def OutFrame.isFunctionCallOutput : OutFrame → Bool
  | .functionCallOutput _ _ => true
  | _ => false

/-- Recognizer for `response.create` frames. -/
def OutFrame.isResponseCreate : OutFrame → Bool
  | .responseCreate => true
  | _ => false

/-- Scenario for the truncation defect: an assistant message item created
with empty content into an empty store. -/
def c1Payload : ItemPayload :=
  { id := "itemA", type := "message", role := some "assistant", content := some [] }

/-- Store after `conversation.item.created` for `c1Payload`. -/
def c1Store1 : Store := (process_item_created {} { item := c1Payload }).1

/-- Store after one `response.audio.delta` whose decoded payload is 32
bytes. -/
def c1Store2 : Store :=
  (process_audio_delta c1Store1
    { item_id := "itemA", content_index := 0, deltaBytes := List.replicate 32 7 }).1

/-- Result of `conversation.item.truncated` with `audio_end_ms = 1`
against `c1Store2`. -/
def c1Result : PRes := process_item_truncated c1Store2 { item_id := "itemA", audio_end_ms := 1 }

/-- Watchdog state for the reschedule counterexample: detection active,
not yet fired, last activity 10 time units ago against a 30-unit
timeout. -/
def c4W : WatchdogState :=
  { active := true, triggered := false, lastActivity := 10, timer := none, timeout := 30 }

/-- Watchdog state for the latching witness: deadline long past. -/
def c3W : WatchdogState :=
  { active := true, triggered := false, lastActivity := 0, timer := some 30, timeout := 30 }

/-- An assistant message item holding a text part but no audio part. -/
def c7Item : Item :=
  { id := "itemA", type := "message", role := some "assistant",
    content := some [{ type := "text", text := some "hi" }] }

/-- An assistant message item holding an audio part at index 1. -/
def c7AudioItem : Item :=
  { id := "itemB", type := "message", role := some "assistant",
    content := some [{ type := "text", text := some "hi" }, { type := "audio" }] }

/-- Client state holding `c7Item` and `c7AudioItem`. -/
def c7Client : ClientState :=
  { tools := [], turn_detection := some "server_vad", input_audio_buffer := [],
    conv := { item_lookup := [("itemA", c7Item), ("itemB", c7AudioItem)],
              itemIds := ["itemA", "itemB"] } }

/-- A tool handler that always succeeds with result `"42"`. -/
def okHandler : Handler := { callable := true, run := fun _ => .ok "42" }

/-- A tool handler that always raises. -/
def badHandler : Handler := { callable := true, run := fun _ => .error "boom" }

/-- A registered tool definition named `x`. -/
def xDef : ToolDef := { name := some "x", schema := "s1" }

/-- A second definition for the same name, distinguishable from `xDef`. -/
def xDef2 : ToolDef := { name := some "x", schema := "s2" }

/-- Client state with tool `x` registered to `okHandler`. -/
def c2Client : ClientState :=
  { tools := [("x", { definition := xDef, handler := okHandler })],
    turn_detection := some "server_vad", input_audio_buffer := [], conv := {} }

/-- The tool descriptor of a completed `function_call` item naming `x`. -/
def c2Tool : ToolDesc :=
  { type := "function", name := "x", call_id := "call_1", arguments := "\x7b\x7d" }

/-- An item `a` with one empty text/transcript content part, as right
after its creation. -/
def c5Item : Item :=
  { id := "a", type := "message", role := some "assistant",
    status := some "in_progress",
    content := some [{ type := "text", text := some "", transcript := some "" }],
    formatted := { audio := .chunks [], text := "", transcript := "" } }

/-- Store holding only `c5Item`. -/
def c5Store : Store :=
  { item_lookup := [("a", c5Item)], itemIds := ["a"] }

/-- Two text deltas addressed to item `a`. -/
def c5Events : List DeltaEvent :=
  [{ item_id := "a", content_index := 0, delta := "he" },
   { item_id := "a", content_index := 0, delta := "llo" }]

/-- Store with an item `dup` already registered, used for the re-created
event frame witness. -/
def c10Store : Store :=
  { item_lookup := [("dup",
      { id := "dup", type := "message", role := some "user", status := some "completed",
        formatted := { audio := .flat [1, 2], text := "old", transcript := "t" } })],
    itemIds := ["dup"],
    queued_transcript_items := [("dup", "queued")],
    queued_input_audio := some [9, 9] }

/-- A `conversation.item.created` event re-announcing item `dup`. -/
def c10Event : CreatedEvent :=
  { item := { id := "dup", type := "message", role := some "user",
              content := some [{ type := "input_text", text := some "fresh" }] } }

/-- Client state used for the disconnect witness: open stream handle. -/
def c9RC : RCState :=
  { silence := c3W, end_call_check_task := true, session_created := true,
    conv := c10Store, api := { ws := some 5 } }

/-! Association-list lemmas. -/

theorem lookupA_map_replace {α : Type} (m : List (String × α)) (k : String) (v : α)
    (h : (lookupA m k).isSome) :
    lookupA (m.map (fun p => if p.1 = k then (k, v) else p)) k = some v := by
  induction m with
  | nil => simp [lookupA] at h
  | cons p rest ih =>
    by_cases hp : p.1 = k
    · simp [lookupA, hp]
    · have h2 : (lookupA rest k).isSome := by simpa [lookupA, hp] using h
      simpa [lookupA, hp] using ih h2

theorem lookupA_append_single {α : Type} (m : List (String × α)) (k : String) (v : α)
    (h : lookupA m k = none) :
    lookupA (m ++ [(k, v)]) k = some v := by
  induction m with
  | nil => simp [lookupA]
  | cons p rest ih =>
    by_cases hp : p.1 = k
    · simp [lookupA, hp] at h
    · simp only [lookupA, hp, if_false] at h
      simpa [lookupA, hp] using ih h

theorem lookupA_insertA_self {α : Type} (m : List (String × α)) (k : String) (v : α) :
    lookupA (insertA m k v) k = some v := by
  unfold insertA containsA
  by_cases h : (lookupA m k).isSome
  · simp only [h, if_true]
    exact lookupA_map_replace m k v h
  · simp only [h, if_false]
    exact lookupA_append_single m k v (Option.not_isSome_iff_eq_none.mp h)

theorem lookupA_eraseA_self {α : Type} (m : List (String × α)) (k : String) :
    lookupA (eraseA m k) k = none := by
  induction m with
  | nil => simp [eraseA, lookupA]
  | cons p rest ih =>
    by_cases hp : p.1 = k
    · simpa [eraseA, hp] using ih
    · simpa [eraseA, hp, lookupA] using ih

theorem containsA_eraseA_self {α : Type} (m : List (String × α)) (k : String) :
    containsA (eraseA m k) k = false := by
  simp [containsA, lookupA_eraseA_self]

/-- C9: `disconnect()` is idempotent: calling it when no transport stream
is open raises nothing and leaves the transport state unchanged, and
calling it twice in sequence releases the underlying stream exactly once
— the second call finds the stream already cleared and no-ops.  Stated
for `RealtimeAPI.disconnect` and for the `RealtimeClient.disconnect`
wrapper (both are total: no raise path exists in the source). -/
theorem claim_C9_disconnect_idempotent (a : APIState) (s : RCState) :
    (a.ws = none → api_disconnect a = (a, 0)) ∧
    (api_disconnect (api_disconnect a).1).2 = 0 ∧
    (api_disconnect a).2 + (api_disconnect (api_disconnect a).1).2 =
      (if a.ws.isSome then 1 else 0) ∧
    (api_disconnect (api_disconnect a).1).1.ws = none ∧
    (client_disconnect (client_disconnect s).1).2 = 0 ∧
    (client_disconnect s).2 + (client_disconnect (client_disconnect s).1).2 =
      (if api_is_connected s.api then 1 else 0) := by
  obtain ⟨ws⟩ := a
  obtain ⟨sil, task, created, conv, ⟨ws2⟩⟩ := s
  cases ws <;> cases ws2 <;>
    simp [api_disconnect, client_disconnect, api_is_connected]

/-- Witness for C9 at a closed transport and at an open client state. -/
theorem claim_C9_disconnect_idempotent_witness :
    api_disconnect { ws := none } = ({ ws := none }, 0) ∧
    (client_disconnect c9RC).2 + (client_disconnect (client_disconnect c9RC).1).2 = 1 := by
  refine ⟨(claim_C9_disconnect_idempotent { ws := none } c9RC).1 rfl, ?_⟩
  have h := (claim_C9_disconnect_idempotent { ws := none } c9RC).2.2.2.2.2
  simpa using h

/-- C6: `response.audio.delta` for an absent item id is a tolerated no-op
returning no item and raising nothing, while every other item-addressed
processor — text delta, audio-transcript delta, function-call-arguments
delta, `content_part.added`, `output_item.done`, `item.truncated`,
`item.deleted` — raises its NotFound error for an absent id. -/
theorem claim_C6_missing_item_tolerance (st : Store) (id : String)
    (hl : lookupA st.item_lookup id = none)
    (ci : Nat) (d : String) (bs : Bytes) (ms : Nat) (part : ContentPart) (status : String) :
    process_audio_delta st { item_id := id, content_index := ci, deltaBytes := bs } =
      (st, .ok (none, none)) ∧
    process_text_delta st { item_id := id, content_index := ci, delta := d } =
      (st, .error (.notFound "response.text.delta" id)) ∧
    process_audio_transcript_delta st { item_id := id, content_index := ci, delta := d } =
      (st, .error (.notFound "response.audio_transcript.delta" id)) ∧
    process_function_call_arguments_delta st { item_id := id, delta := d } =
      (st, .error (.notFound "response.function_call_arguments.delta" id)) ∧
    process_content_part_added st { item_id := id, part := part } =
      (st, .error (.notFound "response.content_part.added" id)) ∧
    process_output_item_done st { item := some { id := id, status := some status } } =
      (st, .error (.notFound "response.output_item.done" id)) ∧
    process_item_truncated st { item_id := id, audio_end_ms := ms } =
      (st, .error (.notFound "item.truncated" id)) ∧
    process_item_deleted st { item_id := id } =
      (st, .error (.notFound "item.deleted" id)) := by
  refine ⟨?_, ?_, ?_, ?_, ?_, ?_, ?_, ?_⟩ <;>
    simp [process_audio_delta, process_text_delta, process_audio_transcript_delta,
      process_function_call_arguments_delta, process_content_part_added,
      process_output_item_done, process_item_truncated, process_item_deleted, hl]

/-- Witness for C6 on the empty store. -/
theorem claim_C6_missing_item_tolerance_witness :
    process_audio_delta {} { item_id := "ghost", content_index := 0, deltaBytes := [1] } =
      ({}, .ok (none, none)) ∧
    process_item_truncated {} { item_id := "ghost", audio_end_ms := 5 } =
      ({}, .error (.notFound "item.truncated" "ghost")) := by
  have h := claim_C6_missing_item_tolerance {} "ghost" rfl 0 "d" [1] 5 { type := "text" } "completed"
  exact ⟨h.1, h.2.2.2.2.2.2.1⟩

/-- C8: `add_tool` with a name already present fails with the
duplicate-name StateConflict and leaves the registry unchanged (the error
is raised before any mutation, so no new registry is produced);
`add_tool` with a non-invocable handler likewise fails; after
`remove_tool` of a registered name, `add_tool` with the same name
succeeds and registers the new definition and handler. -/
theorem claim_C8_add_remove_tool (tools : List (String × RegTool)) (n : String)
    (d d2 : ToolDef) (h h2 : Handler)
    (hn : d.name = some n) (hne : n ≠ "") (hn2 : d2.name = some n) :
    (containsA tools n = true → add_tool tools d h = .error (.toolAlreadyAdded n)) ∧
    (containsA tools n = false → h.callable = false →
      add_tool tools d h = .error (.handlerNotCallable n)) ∧
    (h2.callable = true →
      ∀ tools1, remove_tool tools n = .ok tools1 →
        add_tool tools1 d2 h2 = .ok (tools1 ++ [(n, ⟨d2, h2⟩)], ⟨d2, h2⟩) ∧
        lookupA (tools1 ++ [(n, ⟨d2, h2⟩)]) n = some ⟨d2, h2⟩) := by
  refine ⟨?_, ?_, ?_⟩
  · intro hc
    simp [add_tool, hn, hne, hc]
  · intro hc hcall
    simp [add_tool, hn, hne, hc, hcall]
  · intro hcall tools1 hrem
    unfold remove_tool at hrem
    by_cases hc : containsA tools n = true
    · rw [if_neg (not_not_intro hc)] at hrem
      injection hrem with ht1
      subst ht1
      have hnone : lookupA (eraseA tools n) n = none := lookupA_eraseA_self tools n
      have hcon : containsA (eraseA tools n) n = false := containsA_eraseA_self tools n
      constructor
      · simp [add_tool, hn2, hne, hcon, hcall, insertA]
      · exact lookupA_append_single _ n _ hnone
    · rw [if_pos hc] at hrem
      exact absurd hrem (by simp)

/-- Witness for C8: registering `x` twice fails, and after removal
re-adding with a new definition succeeds. -/
theorem claim_C8_add_remove_tool_witness :
    add_tool [("x", { definition := xDef, handler := okHandler })] xDef okHandler =
      .error (.toolAlreadyAdded "x") ∧
    add_tool [] xDef { callable := false, run := okHandler.run } =
      .error (.handlerNotCallable "x") ∧
    (add_tool (eraseA [("x", { definition := xDef, handler := okHandler })] "x")
        xDef2 badHandler =
      .ok ([("x", ({ definition := xDef2, handler := badHandler } : RegTool))],
           ({ definition := xDef2, handler := badHandler } : RegTool)) ∧
     lookupA [("x", ({ definition := xDef2, handler := badHandler } : RegTool))] "x" =
       some ({ definition := xDef2, handler := badHandler } : RegTool)) := by
  have h := claim_C8_add_remove_tool
    [("x", { definition := xDef, handler := okHandler })] "x" xDef xDef2
    okHandler badHandler rfl (by decide) rfl
  have h2 := claim_C8_add_remove_tool [] "x" xDef xDef2
    { callable := false, run := okHandler.run } badHandler rfl (by decide) rfl
  refine ⟨h.1 rfl, h2.2.1 rfl rfl, ?_⟩
  have h3 := h.2.2 rfl
    (eraseA [("x", { definition := xDef, handler := okHandler })] "x") (by rfl)
  simpa [eraseA] using h3

/-- C2: invoking the tool of a completed `function_call` item emits
exactly one `function_call_output` item-create frame and exactly one
follow-up `response.create` frame, in the success case (the output
carries the handler's result), in the case where the arguments fail to
parse, and in the case where the handler raises (the output carries the
structured error payload). -/
theorem claim_C2_call_tool_frames (c : ClientState) (tool : ToolDesc)
    (parsed : Except String String) :
    ((call_tool c tool parsed).2.countP OutFrame.isFunctionCallOutput = 1 ∧
     (call_tool c tool parsed).2.countP OutFrame.isResponseCreate = 1) ∧
    (∀ args cfg r, parsed = .ok args → lookupA c.tools tool.name = some cfg →
      cfg.handler.run args = .ok r →
      .functionCallOutput tool.call_id (.success r) ∈ (call_tool c tool parsed).2) ∧
    (∀ e, parsed = .error e →
      .functionCallOutput tool.call_id (.failure e) ∈ (call_tool c tool parsed).2) ∧
    (∀ args cfg e, parsed = .ok args → lookupA c.tools tool.name = some cfg →
      cfg.handler.run args = .error e →
      .functionCallOutput tool.call_id (.failure e) ∈ (call_tool c tool parsed).2) := by
  have hcr : ((create_response c).2.countP OutFrame.isFunctionCallOutput = 0 ∧
      (create_response c).2.countP OutFrame.isResponseCreate = 1) := by
    unfold create_response
    split <;> simp [List.countP, List.countP.go, OutFrame.isFunctionCallOutput,
      OutFrame.isResponseCreate]
  refine ⟨?_, ?_, ?_, ?_⟩
  · have hout : ∀ fr : OutFrame, fr.isFunctionCallOutput = true →
        (fr :: (create_response c).2).countP OutFrame.isFunctionCallOutput = 1 ∧
        (fr :: (create_response c).2).countP OutFrame.isResponseCreate = 1 := by
      intro fr hfr
      have hrc : fr.isResponseCreate = false := by
        cases fr <;> simp_all [OutFrame.isFunctionCallOutput, OutFrame.isResponseCreate]
      constructor
      · rw [List.countP_cons_of_pos _ _ hfr, hcr.1]
      · rw [List.countP_cons_of_neg, hcr.2]
        simp [hrc]
    unfold call_tool
    cases parsed with
    | error e =>
      simpa using hout (.functionCallOutput tool.call_id (.failure e)) rfl
    | ok args =>
      cases hlk : lookupA c.tools tool.name with
      | none =>
        simpa [hlk] using
          hout (.functionCallOutput tool.call_id (.failure (toolNotAddedMsg tool.name))) rfl
      | some cfg =>
        cases hr : cfg.handler.run args with
        | ok rr =>
          simpa [hlk, hr] using hout (.functionCallOutput tool.call_id (.success rr)) rfl
        | error e =>
          simpa [hlk, hr] using hout (.functionCallOutput tool.call_id (.failure e)) rfl
  · intro args cfg r hp hlk hr
    subst hp
    simp [call_tool, hlk, hr]
  · intro e hp
    subst hp
    simp [call_tool]
  · intro args cfg e hp hlk hr
    subst hp
    simp [call_tool, hlk, hr]

/-- Witness for C2 in the success case against the registered tool `x`. -/
theorem runWSteps_triggered_zero (steps : List WStep) :
    ∀ w : WatchdogState, w.triggered = true → (runWSteps w steps).2 = 0 := by
  induction steps with
  | nil => intro w _; rfl
  | cons s rest ih =>
    intro w hw
    cases s with
    | timerFires now =>
      have hh : handle_silence_timeout w now = (w, false) := by
        unfold handle_silence_timeout
        rw [if_pos (Or.inr hw)]
      simp [runWSteps, hh, ih w hw]
    | resetAt now =>
      have hh : reset_silence_timer w now = w := by
        unfold reset_silence_timer
        rw [if_pos (Or.inr hw)]
      simp [runWSteps, hh, ih w hw]

/-- C3: within one session the silence watchdog fires at most once: the
first deadline expiry with `elapsed >= timeout` fires and latches the
state (`timeout_triggered` set, detection deactivated, timer cancelled),
and from the latched state no sequence of further timer callbacks or
activity resets ever produces a second termination trigger. -/
theorem claim_C3_watchdog_fires_at_most_once (w : WatchdogState) (now : Nat)
    (steps : List WStep)
    (hact : w.active = true) (htr : w.triggered = false)
    (hexp : w.timeout ≤ now - w.lastActivity) :
    (handle_silence_timeout w now).2 = true ∧
    (handle_silence_timeout w now).1.triggered = true ∧
    (handle_silence_timeout w now).1.active = false ∧
    (handle_silence_timeout w now).1.timer = none ∧
    (runWSteps (handle_silence_timeout w now).1 steps).2 = 0 := by
  have hfire : handle_silence_timeout w now =
      ({ w with triggered := true, active := false, timer := none }, true) := by
    simp [handle_silence_timeout, hact, htr, hexp]
  rw [hfire]
  exact ⟨rfl, rfl, rfl, rfl, runWSteps_triggered_zero steps _ rfl⟩

/-- Witness for C3: a fired watchdog stays silent over three further
callbacks and resets. -/
theorem claim_C3_watchdog_fires_at_most_once_witness :
    (handle_silence_timeout c3W 31).2 = true ∧
    (runWSteps (handle_silence_timeout c3W 31).1
      [.timerFires 100, .resetAt 120, .timerFires 200]).2 = 0 := by
  have h := claim_C3_watchdog_fires_at_most_once c3W 31
    [.timerFires 100, .resetAt 120, .timerFires 200] rfl rfl (by decide)
  exact ⟨h.1, h.2.2.2.2⟩

/-- C4 counterexample: the watchdog wired into `RealtimeClient` does not
reschedule when the deadline expires with `elapsed < timeout`.  In state
`c4W` (active, unfired, elapsed 10 of 30) the expiry handler returns
without firing and without arming any timer, while the claim requires a
fresh single-shot timer for the remaining 20 units. -/
theorem claim_C4_reschedule_counterexample :
    (handle_silence_timeout c4W 20).2 = false ∧
    (handle_silence_timeout c4W 20).1 = c4W ∧
    (handle_silence_timeout c4W 20).1.timer ≠
      some (c4W.timeout - (20 - c4W.lastActivity)) := by
  decide

/-- C4 amended: when the deadline expires with `elapsed < timeout`
neither implementation fires; the standalone `SilenceDetector` reschedules
a single-shot timer for the remaining `timeout - elapsed`, while the
client's integrated handler returns with its state unchanged, leaving
re-arming to the activity reset that raced it. -/
theorem claim_C4_reschedule_amended (w : WatchdogState) (d : DetectorState)
    (now nowD : Nat)
    (hact : w.active = true) (htr : w.triggered = false)
    (hlt : now - w.lastActivity < w.timeout)
    (hltD : nowD - d.lastActivity < d.timeout) :
    handle_silence_timeout w now = (w, false) ∧
    detector_handle_timeout d nowD =
      ({ d with timer := some (d.timeout - (nowD - d.lastActivity)) }, false) := by
  constructor
  · simp [handle_silence_timeout, hact, htr, Nat.not_le.mpr hlt]
  · have hrem : 0 < d.timeout - (nowD - d.lastActivity) := Nat.sub_pos_of_lt hltD
    simp [detector_handle_timeout, Nat.not_le.mpr hltD, hrem]

/-- Witness for C4 amended at elapsed 10 of a 30-unit timeout. -/
theorem claim_C4_reschedule_amended_witness :
    handle_silence_timeout c4W 20 = (c4W, false) ∧
    detector_handle_timeout
      { is_active := true, lastActivity := 10, timer := none, timeout := 30 } 20 =
      ({ is_active := true, lastActivity := 10, timer := some 20, timeout := 30 }, false) := by
  have h := claim_C4_reschedule_amended c4W
    { is_active := true, lastActivity := 10, timer := none, timeout := 30 } 20 20
    rfl rfl (by decide) (by decide)
  exact ⟨h.1, h.2⟩

theorem stageSpeech_frame (s : CreatedStage) :
    (stageSpeech s).st.item_lookup = s.st.item_lookup ∧
    (stageSpeech s).st.itemIds = s.st.itemIds := by
  unfold stageSpeech
  repeat' split
  all_goals exact ⟨rfl, rfl⟩

theorem stageText_frame (s : CreatedStage) :
    (stageText s).st.item_lookup = s.st.item_lookup ∧
    (stageText s).st.itemIds = s.st.itemIds := by
  unfold stageText
  repeat' split
  all_goals exact ⟨rfl, rfl⟩

theorem stageTranscript_frame (s : CreatedStage) :
    (stageTranscript s).st.item_lookup = s.st.item_lookup ∧
    (stageTranscript s).st.itemIds = s.st.itemIds := by
  unfold stageTranscript
  repeat' split
  all_goals exact ⟨rfl, rfl⟩

theorem stageStatus_frame (s : CreatedStage) :
    (stageStatus s).st.item_lookup = s.st.item_lookup ∧
    (stageStatus s).st.itemIds = s.st.itemIds := by
  unfold stageStatus
  repeat' split
  all_goals exact ⟨rfl, rfl⟩

/-- C10: processing a `conversation.item.created` event whose id is
already registered leaves the stored item, the `item_lookup` index and
the ordered items list unchanged on every execution path — the formatted
re-initialization, status assignment and queue merges apply only to the
fresh copy, which is never inserted. -/
theorem claim_C10_recreated_item_frame (st : Store) (e : CreatedEvent)
    (hc : containsA st.item_lookup e.item.id = true) :
    (process_item_created st e).1.item_lookup = st.item_lookup ∧
    (process_item_created st e).1.itemIds = st.itemIds := by
  unfold process_item_created
  simp only []
  rw [if_neg (not_not_intro hc)]
  constructor
  · rw [(stageStatus_frame _).1, (stageTranscript_frame _).1, (stageText_frame _).1,
      (stageSpeech_frame _).1]
  · rw [(stageStatus_frame _).2, (stageTranscript_frame _).2, (stageText_frame _).2,
      (stageSpeech_frame _).2]

/-- Witness for C10: re-announcing the registered item `dup` leaves the
index and order untouched even though queue merges run. -/
theorem claim_C10_recreated_item_frame_witness :
    (process_item_created c10Store c10Event).1.item_lookup = c10Store.item_lookup ∧
    (process_item_created c10Store c10Event).1.itemIds = c10Store.itemIds := by
  exact claim_C10_recreated_item_frame c10Store c10Event (by decide)

/-- C7 counterexample: `cancel_response` against the assistant message
`itemA`, which has no audio content part, fails with the no-audio
StateConflict but has already sent the `response.cancel` frame, refuting
the claim that no cancel frame has been sent whenever the call fails. -/
theorem claim_C7_cancel_counterexample :
    (cancel_response c7Client (some "itemA") 0).2 = .error .noAudioContent ∧
    (cancel_response c7Client (some "itemA") 0).1 = [.responseCancel] := by
  exact ⟨rfl, rfl⟩

/-- C7 amended: with no id `cancel_response` sends only a bare
`response.cancel`; with an id it fails with NotFound when the item is
absent and with StateConflict when the item is not a message, not
assistant-role, or has no audio content part.  The absent, wrong-type and
wrong-role failures occur before any frame is sent, but the no-audio
failure occurs after `response.cancel` has already been sent.  When all
requirements hold it sends `response.cancel` followed by a
`conversation.item.truncate` whose `audio_end_ms` is the millisecond
equivalent of `sample_count` at the store's 16000 Hz rate. -/
theorem claim_C7_cancel_response_amended (c : ClientState) (i : String) (sc : Nat) :
    cancel_response c none sc = ([.responseCancel], .ok none) ∧
    (lookupA c.conv.item_lookup i = none →
      cancel_response c (some i) sc = ([], .error (.itemNotFound i))) ∧
    (∀ item, lookupA c.conv.item_lookup i = some item →
      (item.type ≠ "message" →
        cancel_response c (some i) sc = ([], .error .notMessageType)) ∧
      (∀ r, item.type = "message" → item.role = some r → r ≠ "assistant" →
        cancel_response c (some i) sc = ([], .error .notAssistantRole)) ∧
      (∀ parts, item.type = "message" → item.role = some "assistant" →
        item.content = some parts → findAudioIndex parts = none →
        cancel_response c (some i) sc = ([.responseCancel], .error .noAudioContent)) ∧
      (∀ parts ai, item.type = "message" → item.role = some "assistant" →
        item.content = some parts → findAudioIndex parts = some ai →
        cancel_response c (some i) sc =
          ([.responseCancel, .itemTruncate i ai (sc * 1000 / default_frequency)],
           .ok (some item)))) := by
  refine ⟨rfl, ?_, ?_⟩
  · intro hl
    simp [cancel_response, hl]
  · intro item hl
    refine ⟨?_, ?_, ?_, ?_⟩
    · intro hty
      simp [cancel_response, hl, hty]
    · intro r hty hrole hr
      simp [cancel_response, hl, hty, hrole, hr]
    · intro parts hty hrole hcont hfind
      simp [cancel_response, hl, hty, hrole, hcont, hfind]
    · intro parts ai hty hrole hcont hfind
      simp [cancel_response, hl, hty, hrole, hcont, hfind]

/-- Witness for C7 amended: cancelling `itemB` (assistant message with an
audio part at index 1) at `sample_count = 32000` sends cancel plus a
truncation at 2000 ms. -/
theorem claim_C7_cancel_response_amended_witness :
    cancel_response c7Client none 0 = ([.responseCancel], .ok none) ∧
    cancel_response c7Client (some "itemB") 32000 =
      ([.responseCancel, .itemTruncate "itemB" 1 2000], .ok (some c7AudioItem)) := by
  have h := claim_C7_cancel_response_amended c7Client "itemB" 32000
  refine ⟨h.1, ?_⟩
  have h2 := (h.2.2 c7AudioItem (by decide)).2.2.2
    [{ type := "text", text := some "hi" }, { type := "audio" }] 1
    rfl rfl rfl (by decide)
  simpa using h2

/-- C1 failing-input evaluation: an assistant message item is created
into an empty store, receives one `response.audio.delta` of 32 decoded
bytes, and is then truncated at `audio_end_ms = 1`.  The claim requires
`min(32, 1*16000/1000) = 16` bytes to remain, but the stored audio is a
one-element chunk list, the sample-index slice `[:16]` keeps the whole
chunk, and all 32 bytes survive; the transcript is cleared as claimed. -/
theorem claim_C1_truncation_sample_bug :
    (lookupA c1Result.1.item_lookup "itemA").map (fun it => it.formatted.audio.byteCount) =
      some 32 ∧
    min 32 (1 * default_frequency / 1000) = 16 ∧
    (lookupA c1Result.1.item_lookup "itemA").map (fun it => it.formatted.transcript) =
      some "" ∧
    ¬ (32 : Nat) = 16 := by
  refine ⟨?_, by decide, ?_, by decide⟩ <;> decide

theorem claim_C2_call_tool_frames_witness :
    ((call_tool c2Client c2Tool (.ok "args")).2.countP OutFrame.isFunctionCallOutput = 1 ∧
     (call_tool c2Client c2Tool (.ok "args")).2.countP OutFrame.isResponseCreate = 1) ∧
    .functionCallOutput "call_1" (.success "42") ∈ (call_tool c2Client c2Tool (.ok "args")).2 := by
  have h := claim_C2_call_tool_frames c2Client c2Tool (.ok "args")
  exact ⟨h.1, h.2.1 "args" ⟨xDef, okHandler⟩ "42" rfl rfl rfl⟩

theorem process_text_delta_ok {st st1 : Store} {e : DeltaEvent}
    {r : Option Item × Option DeltaOut}
    (h : process_text_delta st e = (st1, .ok r)) {item : Item}
    (hl : lookupA st.item_lookup e.item_id = some item) :
    ∃ item1 : Item, st1 = st.setItem e.item_id item1 ∧
      item1.formatted.text = item.formatted.text ++ e.delta := by
  unfold process_text_delta at h
  simp only [hl] at h
  cases hc : item.content with
  | none =>
    simp only [hc] at h
    simp at h
  | some parts =>
    simp only [hc] at h
    by_cases hi : e.content_index < parts.length
    · rw [dif_pos hi] at h
      cases hpt : (parts.get ⟨e.content_index, hi⟩).text with
      | none =>
        simp only [hpt] at h
        simp at h
      | some t =>
        simp only [hpt] at h
        injection h with h1 h2
        exact ⟨_, h1.symm, rfl⟩
    · rw [dif_neg hi] at h
      simp at h

theorem process_audio_transcript_delta_ok {st st1 : Store} {e : DeltaEvent}
    {r : Option Item × Option DeltaOut}
    (h : process_audio_transcript_delta st e = (st1, .ok r)) {item : Item}
    (hl : lookupA st.item_lookup e.item_id = some item) :
    ∃ item1 : Item, st1 = st.setItem e.item_id item1 ∧
      item1.formatted.transcript = item.formatted.transcript ++ e.delta := by
  unfold process_audio_transcript_delta at h
  simp only [hl] at h
  cases hc : item.content with
  | none =>
    simp only [hc] at h
    simp at h
  | some parts =>
    simp only [hc] at h
    by_cases hi : e.content_index < parts.length
    · rw [dif_pos hi] at h
      cases hpt : (parts.get ⟨e.content_index, hi⟩).transcript with
      | none =>
        simp only [hpt] at h
        simp at h
      | some t =>
        simp only [hpt] at h
        injection h with h1 h2
        exact ⟨_, h1.symm, rfl⟩
    · rw [dif_neg hi] at h
      simp at h

theorem applyTextDeltas_concat (es : List DeltaEvent) :
    ∀ (st : Store) (id : String) (item : Item) (st' : Store),
    lookupA st.item_lookup id = some item →
    (∀ e ∈ es, e.item_id = id) →
    applyTextDeltas st es = (st', none) →
    ∃ item', lookupA st'.item_lookup id = some item' ∧
      item'.formatted.text =
        es.foldl (fun a e => a ++ e.delta) item.formatted.text := by
  induction es with
  | nil =>
    intro st id item st' hl _ happ
    unfold applyTextDeltas at happ
    injection happ with h1 _
    subst h1
    exact ⟨item, hl, rfl⟩
  | cons e rest ih =>
    intro st id item st' hl hall happ
    have he : e.item_id = id := hall e (List.mem_cons_self e rest)
    subst he
    unfold applyTextDeltas at happ
    cases hp : process_text_delta st e with
    | mk st1 res =>
      rw [hp] at happ
      cases res with
      | error er => simp at happ
      | ok v =>
        obtain ⟨item1, hst1, htext⟩ := process_text_delta_ok hp hl
        subst hst1
        have hl1 : lookupA (st.setItem e.item_id item1).item_lookup e.item_id = some item1 :=
          lookupA_insertA_self st.item_lookup e.item_id item1
        have hrest : ∀ x ∈ rest, x.item_id = e.item_id :=
          fun x hx => hall x (List.mem_cons_of_mem e hx)
        obtain ⟨item', hl', ht⟩ := ih _ e.item_id item1 st' hl1 hrest happ
        refine ⟨item', hl', ?_⟩
        rw [ht, htext]
        rfl

theorem applyTranscriptDeltas_concat (es : List DeltaEvent) :
    ∀ (st : Store) (id : String) (item : Item) (st' : Store),
    lookupA st.item_lookup id = some item →
    (∀ e ∈ es, e.item_id = id) →
    applyTranscriptDeltas st es = (st', none) →
    ∃ item', lookupA st'.item_lookup id = some item' ∧
      item'.formatted.transcript =
        es.foldl (fun a e => a ++ e.delta) item.formatted.transcript := by
  induction es with
  | nil =>
    intro st id item st' hl _ happ
    unfold applyTranscriptDeltas at happ
    injection happ with h1 _
    subst h1
    exact ⟨item, hl, rfl⟩
  | cons e rest ih =>
    intro st id item st' hl hall happ
    have he : e.item_id = id := hall e (List.mem_cons_self e rest)
    subst he
    unfold applyTranscriptDeltas at happ
    cases hp : process_audio_transcript_delta st e with
    | mk st1 res =>
      rw [hp] at happ
      cases res with
      | error er => simp at happ
      | ok v =>
        obtain ⟨item1, hst1, htext⟩ := process_audio_transcript_delta_ok hp hl
        subst hst1
        have hl1 : lookupA (st.setItem e.item_id item1).item_lookup e.item_id = some item1 :=
          lookupA_insertA_self st.item_lookup e.item_id item1
        have hrest : ∀ x ∈ rest, x.item_id = e.item_id :=
          fun x hx => hall x (List.mem_cons_of_mem e hx)
        obtain ⟨item', hl', ht⟩ := ih _ e.item_id item1 st' hl1 hrest happ
        refine ⟨item', hl', ?_⟩
        rw [ht, htext]
        rfl

theorem foldl_delta_eq_concat (es : List DeltaEvent) :
    es.foldl (fun a e => a ++ e.delta) "" = concatDeltas es := by
  simp [concatDeltas, String.join, List.foldl_map]

/-- C5: for every item and every in-order sequence of
`response.text.delta` (respectively `response.audio_transcript.delta`)
events addressed to it after its creation with empty formatted text
(respectively transcript), if processing raises no error the final
`formatted.text` (respectively `formatted.transcript`) equals the
in-order concatenation of the delta strings. -/
theorem claim_C5_delta_concatenation (st : Store) (id : String) (item : Item)
    (es : List DeltaEvent) (st' : Store)
    (hl : lookupA st.item_lookup id = some item)
    (hall : ∀ e ∈ es, e.item_id = id) :
    (item.formatted.text = "" → applyTextDeltas st es = (st', none) →
      ∃ item', lookupA st'.item_lookup id = some item' ∧
        item'.formatted.text = concatDeltas es) ∧
    (item.formatted.transcript = "" → applyTranscriptDeltas st es = (st', none) →
      ∃ item', lookupA st'.item_lookup id = some item' ∧
        item'.formatted.transcript = concatDeltas es) := by
  constructor
  · intro h0 happ
    obtain ⟨item', hl', ht⟩ := applyTextDeltas_concat es st id item st' hl hall happ
    refine ⟨item', hl', ?_⟩
    rw [ht, h0, foldl_delta_eq_concat]
  · intro h0 happ
    obtain ⟨item', hl', ht⟩ := applyTranscriptDeltas_concat es st id item st' hl hall happ
    refine ⟨item', hl', ?_⟩
    rw [ht, h0, foldl_delta_eq_concat]

/-- Witness for C5: two text deltas `he` and `llo` against the freshly
created item `a` leave formatted text `hello`. -/
theorem claim_C5_delta_concatenation_witness :
    ∃ item', lookupA (applyTextDeltas c5Store c5Events).1.item_lookup "a" = some item' ∧
      item'.formatted.text = concatDeltas c5Events := by
  have h := claim_C5_delta_concatenation c5Store "a" c5Item c5Events
    (applyTextDeltas c5Store c5Events).1 rfl (by decide)
  exact h.1 rfl rfl

end InboundBot
